import Mathlib

/-
Verification development for the mini_ecom backend.

The Python sources are shallowly embedded:
- Django model rows become Lean structures; Decimal money amounts become
  rationals (prices have two decimal places, so rationals are exact);
- timestamps become integers (seconds); timedelta(hours=24) is 86400 s;
- handler functions become pure Lean functions from an explicit database
  state and request data to an HTTP response paired with the new state;
- the unbounded while-loops that walk the category parent chain become
  fuel-indexed functions returning none when the fuel is exhausted.
-/

namespace MiniEcom

/- ## Products app: products/models.py -/

/-- Embedding of the Product row, restricted to the fields the pricing and
inventory logic reads or writes: price, compare_at_price, cost_price
(DecimalFields, compare_at_price and cost_price nullable), stock_quantity,
low_stock_threshold (PositiveIntegerFields), track_inventory and
allow_backorder (BooleanFields). -/
structure Product where
  price : ℚ
  compare_at_price : Option ℚ
  cost_price : Option ℚ
  stock_quantity : Nat
  low_stock_threshold : Nat
  track_inventory : Bool
  allow_backorder : Bool
  deriving Repr, DecidableEq

/-- Python int() applied to a rational: truncation toward zero. -/
def pyInt (q : ℚ) : ℤ :=
  if 0 ≤ q then ⌊q⌋ else ⌈q⌉

/-- Python round() applied to a rational: round half to even. -/
def pyRound (q : ℚ) : ℤ :=
  let f : ℤ := ⌊q⌋
  let r : ℚ := q - f
  if r < 1/2 then f
  else if 1/2 < r then f + 1
  else if f % 2 = 0 then f else f + 1

/-- Product.discount_percentage: if self.compare_at_price (Python truthiness:
set and nonzero) and self.compare_at_price > self.price, return
int((compare_at_price - price) / compare_at_price * 100), else None. -/
def Product.discount_percentage (p : Product) : Option ℤ :=
  match p.compare_at_price with
  | none => none
  | some c =>
    if c ≠ 0 ∧ p.price < c then
      some (pyInt ((c - p.price) / c * 100))
    else none

/-- Product.reduce_stock(quantity): returns True untouched when inventory is
not tracked; otherwise decrements and saves when stock suffices, else returns
False with no mutation.  The returned pair is (return value, updated row). -/
def Product.reduce_stock (p : Product) (quantity : Nat) : Bool × Product :=
  if !p.track_inventory then (true, p)
  else if quantity ≤ p.stock_quantity then
    (true, { p with stock_quantity := p.stock_quantity - quantity })
  else (false, p)

/-- Product.increase_stock(quantity): increments and saves only when
track_inventory holds. -/
def Product.increase_stock (p : Product) (quantity : Nat) : Product :=
  if p.track_inventory then
    { p with stock_quantity := p.stock_quantity + quantity }
  else p

/- ## Categories: products/models.py, Category -/

/-
A category row is identified by its primary key (Nat).  The stored parent
pointers of the table are a function from pk to optional parent pk, and the
stored names a function from pk to String.  The Python loops
(while current: ... current = current.parent) are embedded with explicit
fuel; a result of none means the fuel ran out before the loop finished.
-/

/-- Follow the stored parent pointer n times from an optional starting
category; used to express that a parent chain is finite and acyclic. -/
def iterParent (σ : Nat → Option Nat) : Nat → Option Nat → Option Nat
  | 0, oc => oc
  | _ + 1, none => none
  | n + 1, some c => iterParent σ n (σ c)

/-- The list of categories visited by walking parent pointers from an
optional starting point: exactly the nodes the clean loop inspects.
Returns none when the chain does not finish within the fuel. -/
def ancestorsF (σ : Nat → Option Nat) : Nat → Option Nat → Option (List Nat)
  | _, none => some []
  | 0, some _ => none
  | n + 1, some c => (ancestorsF σ n (σ c)).map (fun l => c :: l)

/-- The while-loop of Category.clean: current starts at the parent, raises
(some true) when current == self, moves to current.parent, and finishes
without raising (some false) when current becomes None. -/
def cleanLoop (σ : Nat → Option Nat) (selfId : Nat) :
    Nat → Option Nat → Option Bool
  | _, none => some false
  | 0, some _ => none
  | n + 1, some c =>
    if c = selfId then some true else cleanLoop σ selfId n (σ c)

/-- Category.clean for a category with pk selfId and in-memory parent field
parent: first the direct self-parent check, then the circular-reference walk.
some true means a ValidationError is raised, some false means validation
passes, none means the walk did not finish within the fuel. -/
def Category.clean (σ : Nat → Option Nat) (fuel : Nat) (selfId : Nat)
    (parent : Option Nat) : Option Bool :=
  if parent = some selfId then some true
  else cleanLoop σ selfId fuel parent

/-- The while-loop of Category.level: counts parent steps until None. -/
def levelLoop (σ : Nat → Option Nat) : Nat → Option Nat → Option Nat
  | _, none => some 0
  | 0, some _ => none
  | n + 1, some c => (levelLoop σ n (σ c)).map (fun k => k + 1)

/-- Category.full_name: parent.full_name followed by " > " and the own name
when a parent exists, else the own name; fuel-indexed recursion. -/
def Category.full_name (σ : Nat → Option Nat) (ν : Nat → String) :
    Nat → Nat → Option String
  | 0, c =>
    match σ c with
    | none => some (ν c)
    | some _ => none
  | n + 1, c =>
    match σ c with
    | none => some (ν c)
    | some p => (Category.full_name σ ν n p).map (fun s => s ++ " > " ++ ν c)

/- ## Authentication app: authentication/models.py -/

/-- Embedding of the EmailVerificationToken row.  The user foreign key and
the UUID token value are abstracted to Nat identifiers; timestamps are
integer seconds.  expires_at is NOT NULL in the database because save fills
it before the insert, so it is a plain Int here. -/
structure EmailVerificationToken where
  userId : Nat
  token : Nat
  created_at : ℤ
  expires_at : ℤ
  used : Bool
  used_at : Option ℤ
  deriving Repr, DecidableEq

/-- EmailVerificationToken.DEFAULT_EXPIRY_HOURS, in seconds. -/
def DEFAULT_EXPIRY_SECONDS : ℤ := 24 * 3600

/-- Creating a token row at time now: field defaults give used=False and
used_at=None, created_at is auto_now_add, and save fills expires_at with
now + timedelta(hours=24) when no explicit value was provided. -/
def EmailVerificationToken.create (userId tok : Nat) (now : ℤ)
    (explicitExpiry : Option ℤ) : EmailVerificationToken :=
  { userId := userId
    token := tok
    created_at := now
    expires_at :=
      match explicitExpiry with
      | some e => e
      | none => now + DEFAULT_EXPIRY_SECONDS
    used := false
    used_at := none }

/-- EmailVerificationToken.is_expired: timezone.now() > self.expires_at. -/
def EmailVerificationToken.is_expired (now : ℤ) (t : EmailVerificationToken) :
    Bool :=
  t.expires_at < now

/- ## Authentication endpoints: authentication/views.py -/

/-- The parts of a DRF response the claims talk about: HTTP status code and
the success flag and message of the JSON envelope. -/
structure HttpResponse where
  status : Nat
  success : Bool
  message : String
  deriving Repr, DecidableEq

/-- Database state touched by verify_email: the token table, plus the
is_active flag of each user and the email_verified / email_verified_at
fields of each profile, indexed by user pk.  Profiles are total because the
handler runs get_or_create. -/
structure VerifyState where
  tokens : List EmailVerificationToken
  userActive : Nat → Bool
  profVerified : Nat → Bool
  profVerifiedAt : Nat → Option ℤ

/-- verify_email(request, token) for a syntactically valid token value:
look up the row with this token and used=False (404-free: the user FK always
resolves); 400 when absent or expired; 200 with no state change when the
profile is already verified; otherwise atomically set
profile.email_verified, user.is_active and token.used.  Returns the
response and the new database state. -/
def verify_email (now : ℤ) (s : VerifyState) (tok : Nat) :
    HttpResponse × VerifyState :=
  match s.tokens.find? (fun t => t.token == tok && !t.used) with
  | none =>
    ({ status := 400, success := false,
       message := "Invalid or expired verification token" }, s)
  | some vt =>
    if vt.is_expired now then
      ({ status := 400, success := false,
         message := "Verification token has expired. Please request a new verification email." },
       s)
    else if s.profVerified vt.userId then
      ({ status := 200, success := true,
         message := "Email address is already verified. You can log in now." },
       s)
    else
      ({ status := 200, success := true,
         message := "Email verified successfully! You can now log in." },
       { s with
         profVerified := fun u => if u = vt.userId then true else s.profVerified u
         profVerifiedAt := fun u => if u = vt.userId then some now else s.profVerifiedAt u
         userActive := fun u => if u = vt.userId then true else s.userActive u
         tokens := s.tokens.map
           (fun t => if t.token == tok then { t with used := true } else t) })

/-- A user row as read by the resend / password-reset handlers. -/
structure UserRec where
  id : Nat
  email : String
  is_active : Bool
  deriving Repr, DecidableEq

/-- Database state touched by resend_verification_email and
request_password_reset, plus a log of verification emails handed to the
mail collaborator. -/
structure AccountState where
  users : List UserRec
  profVerified : Nat → Bool
  tokens : List EmailVerificationToken
  emailsSent : List Nat

/-- EmailVerificationTokenManager.create_for_user: delete the unused tokens
of the user, then create a fresh one (with default expiry). -/
def create_for_user (uid newTok : Nat) (now : ℤ) (s : AccountState) :
    EmailVerificationToken × AccountState :=
  let remaining := s.tokens.filter (fun t => !(t.userId == uid && !t.used))
  let t := EmailVerificationToken.create uid newTok now none
  (t, { s with tokens := remaining ++ [t] })

/-- Modelled from the spec: send_verification_email is defined in
authentication/utils.py, which is not among the provided sources; the spec
describes the step as issue verification token, then send email via the
external collaborator, reporting success.  We model it as create_for_user
followed by a delivery attempt whose outcome is the parameter sendOk; on
success the user id is appended to the emailsSent log. -/
def send_verification_email (sendOk : Bool) (uid newTok : Nat) (now : ℤ)
    (s : AccountState) : Bool × AccountState :=
  let s1 := (create_for_user uid newTok now s).2
  if sendOk then (true, { s1 with emailsSent := s1.emailsSent ++ [uid] })
  else (false, s1)

/-- Number of token rows of the user created within the last window seconds:
the filter user=user, created_at__gte=now - window, then count. -/
def recentTokenCount (tokens : List EmailVerificationToken) (uid : Nat)
    (now window : ℤ) : Nat :=
  (tokens.filter (fun t => t.userId == uid && now - window ≤ t.created_at)).length

/-- The anti-enumeration response of resend_verification_email. -/
def resendStandardResponse : HttpResponse :=
  { status := 200, success := true,
    message := "If the email exists in our system and is not verified, a verification email has been sent." }

/-- The anti-enumeration response of request_password_reset. -/
def resetStandardResponse : HttpResponse :=
  { status := 200, success := true,
    message := "If the email exists in our system, a password reset link has been sent." }

/-- resend_verification_email(request).  validFmt is the framework email
validator, sendOk the delivery outcome of the mail collaborator and newTok
the UUID drawn for a fresh token.  After input validation every path
returns the standard response: unknown email, already verified profile,
rate limit (3 token rows within 300 s), and both outcomes of the send.
The view first normalises the input with strip().lower() and looks the user
up with email__iexact (case-insensitive); we embed every email address by
its normalised lowercase form, so the lookup becomes plain equality. -/
def resend_verification_email (validFmt : String → Bool) (sendOk : Bool)
    (newTok : Nat) (now : ℤ) (s : AccountState) (email : String) :
    HttpResponse × AccountState :=
  if email = "" then
    ({ status := 400, success := false,
       message := "Email address is required" }, s)
  else if !validFmt email then
    ({ status := 400, success := false,
       message := "Please enter a valid email address" }, s)
  else
    match s.users.find? (fun u => u.email == email) with
    | none => (resendStandardResponse, s)
    | some u =>
      if s.profVerified u.id then (resendStandardResponse, s)
      else if 3 ≤ recentTokenCount s.tokens u.id now 300 then
        (resendStandardResponse, s)
      else
        let kept := s.tokens.filter
          (fun t => !(t.userId == u.id && !t.used && t.expires_at < now))
        let s1 := { s with tokens := kept }
        (resendStandardResponse, (send_verification_email sendOk u.id newTok now s1).2)

/-- request_password_reset(request).  After input validation every path
returns the standard response: unknown email, inactive user, rate limit
(3 token rows within 900 s), and the token-creation path (the reset email
itself is a TODO in the source; only the token is created).  Emails are
embedded by their normalised lowercase form as in resend_verification_email. -/
def request_password_reset (validFmt : String → Bool) (newTok : Nat)
    (now : ℤ) (s : AccountState) (email : String) :
    HttpResponse × AccountState :=
  if email = "" then
    ({ status := 400, success := false,
       message := "Email address is required" }, s)
  else if !validFmt email then
    ({ status := 400, success := false,
       message := "Please enter a valid email address" }, s)
  else
    match s.users.find? (fun u => u.email == email) with
    | none => (resetStandardResponse, s)
    | some u =>
      if !u.is_active then (resetStandardResponse, s)
      else if 3 ≤ recentTokenCount s.tokens u.id now 900 then
        (resetStandardResponse, s)
      else
        (resetStandardResponse, (create_for_user u.id newTok now s).2)

/- ## Helper lemmas -/

/-- Python int() agrees with the floor on nonnegative rationals. -/
theorem pyInt_eq_floor {q : ℚ} (h : 0 ≤ q) : pyInt q = ⌊q⌋ := if_pos h

/- ## Claim C3: reduce_stock -/

/-- A product with inventory tracking disabled and zero stock. -/
def untrackedProduct : Product :=
  { price := 1, compare_at_price := none, cost_price := none
    stock_quantity := 0, low_stock_threshold := 5
    track_inventory := false, allow_backorder := false }

/-- C3 counterexample: for a product with track_inventory=False and empty
stock, reduce_stock(5) has 5 > stock_quantity yet returns True instead of
the False the claim demands (and performs no decrement). -/
theorem reduce_stock_counterexample :
    untrackedProduct.stock_quantity < 5 ∧
    (untrackedProduct.reduce_stock 5).1 ≠ false ∧
    (untrackedProduct.reduce_stock 5).2 = untrackedProduct := by
  refine ⟨by decide, by decide, rfl⟩

/-- C3 (amended): when track_inventory is True, reduce_stock(q) returns
False and mutates nothing if q exceeds stock_quantity, and otherwise
returns True decrementing stock_quantity by exactly q; when
track_inventory is False it returns True and changes nothing. -/
theorem reduce_stock_spec (p : Product) (q : Nat) :
    (p.track_inventory = true → p.stock_quantity < q →
      p.reduce_stock q = (false, p)) ∧
    (p.track_inventory = true → q ≤ p.stock_quantity →
      p.reduce_stock q = (true, { p with stock_quantity := p.stock_quantity - q })) ∧
    (p.track_inventory = false → p.reduce_stock q = (true, p)) := by
  refine ⟨?_, ?_, ?_⟩
  · intro ht hlt
    simp [Product.reduce_stock, ht, Nat.not_le.mpr hlt]
  · intro ht hle
    simp [Product.reduce_stock, ht, hle]
  · intro ht
    simp [Product.reduce_stock, ht]

/-- A tracked product with ten units in stock. -/
def trackedProduct : Product :=
  { price := 2, compare_at_price := none, cost_price := none
    stock_quantity := 10, low_stock_threshold := 5
    track_inventory := true, allow_backorder := false }

/-- Witness for reduce_stock_spec at a tracked product with stock 10 and
quantity 3. -/
theorem reduce_stock_spec_witness :
    trackedProduct.reduce_stock 3 =
      (true, { trackedProduct with stock_quantity := 7 }) := by
  have h := (reduce_stock_spec trackedProduct 3).2.1 rfl (by decide)
  simpa using h

/- ## Claim C9: increase_stock -/

/-- C9: increase_stock(q) adds exactly q to stock_quantity when
track_inventory is True, leaves the row untouched when it is False, and in
either case modifies no field other than stock_quantity (the record update
fixes every other field). -/
theorem increase_stock_spec (p : Product) (q : Nat) :
    (p.track_inventory = true →
      p.increase_stock q = { p with stock_quantity := p.stock_quantity + q }) ∧
    (p.track_inventory = false → p.increase_stock q = p) := by
  constructor <;> intro ht <;> simp [Product.increase_stock, ht]

/-- Witness for increase_stock_spec at a tracked product with stock 10 and
quantity 4. -/
theorem increase_stock_spec_witness :
    trackedProduct.increase_stock 4 =
      { trackedProduct with stock_quantity := 14 } := by
  have h := (increase_stock_spec trackedProduct 4).1 rfl
  simpa using h

/- ## Claim C4: discount_percentage -/

/-- A product priced 1 with compare_at_price 3. -/
def discountProduct : Product :=
  { price := 1, compare_at_price := some 3, cost_price := none
    stock_quantity := 0, low_stock_threshold := 5
    track_inventory := true, allow_backorder := false }

/-- C4 counterexample: with price 1 and compare_at_price 3 the code yields
int(200/3) = 66, while the claimed round((compare-price)/compare*100)
is 67. -/
theorem discount_percentage_counterexample :
    discountProduct.compare_at_price = some 3 ∧
    discountProduct.price < 3 ∧
    discountProduct.discount_percentage ≠
      some (pyRound ((3 - discountProduct.price) / 3 * 100)) := by
  have hval : ((3 : ℚ) - 1) / 3 * 100 = 200 / 3 := by norm_num
  have h66 : discountProduct.discount_percentage = some 66 := by
    have h0 : ((0 : ℚ)) ≤ 200 / 3 := by norm_num
    simp only [Product.discount_percentage, discountProduct]
    rw [if_pos (by norm_num)]
    rw [show ((3 : ℚ) - 1) / 3 * 100 = 200 / 3 from hval, pyInt_eq_floor h0]
    norm_num
  have h67 : pyRound ((3 - discountProduct.price) / 3 * 100) = 67 := by
    simp only [discountProduct]
    rw [show ((3 : ℚ) - 1) / 3 * 100 = 200 / 3 from hval]
    have hf : ⌊(200 : ℚ) / 3⌋ = 66 := by norm_num
    unfold pyRound
    rw [hf]
    rw [if_neg (by norm_num), if_pos (by norm_num)]
    norm_num
  refine ⟨rfl, by norm_num [discountProduct], ?_⟩
  rw [h66, h67]
  decide

/-- C4 (amended): discount_percentage is None unless compare_at_price is
set and exceeds price; in that case (prices being positive, as the
MinValueValidator enforces) it equals the truncation
int((compare-price)/compare*100), i.e. the floor, not the rounding. -/
theorem discount_percentage_spec (p : Product) (hp : 0 < p.price) :
    (p.compare_at_price = none → p.discount_percentage = none) ∧
    (∀ c : ℚ, p.compare_at_price = some c → c ≤ p.price →
      p.discount_percentage = none) ∧
    (∀ c : ℚ, p.compare_at_price = some c → p.price < c →
      p.discount_percentage = some ⌊(c - p.price) / c * 100⌋) := by
  refine ⟨?_, ?_, ?_⟩
  · intro h
    simp [Product.discount_percentage, h]
  · intro c hc hle
    simp only [Product.discount_percentage, hc]
    rw [if_neg]
    rintro ⟨-, hlt⟩
    exact absurd hlt (not_lt.mpr hle)
  · intro c hc hlt
    have hc0 : (0 : ℚ) < c := lt_trans hp hlt
    have hnum : (0 : ℚ) ≤ (c - p.price) / c * 100 := by
      have h1 : (0 : ℚ) ≤ (c - p.price) / c :=
        div_nonneg (by linarith) hc0.le
      linarith
    simp only [Product.discount_percentage, hc]
    rw [if_pos ⟨hc0.ne', hlt⟩, pyInt_eq_floor hnum]

/-- Witness for discount_percentage_spec at price 1, compare_at_price 3. -/
theorem discount_percentage_spec_witness :
    discountProduct.discount_percentage =
      some ⌊((3 : ℚ) - discountProduct.price) / 3 * 100⌋ :=
  (discount_percentage_spec discountProduct (by norm_num [discountProduct])).2.2
    3 rfl (by norm_num [discountProduct])

/- ## Claim C7: fresh token defaults -/

/-- C7: a token created without an explicit expires_at gets
expires_at = created_at + 24 hours and used = False. -/
theorem fresh_token_defaults (userId tok : Nat) (now : ℤ) :
    (EmailVerificationToken.create userId tok now none).expires_at =
      (EmailVerificationToken.create userId tok now none).created_at + 24 * 3600 ∧
    (EmailVerificationToken.create userId tok now none).used = false :=
  ⟨rfl, rfl⟩

/- ## Claim C8: Category.clean detects exactly the ancestor cycles -/

/-- The clean loop answers exactly the membership question on the list of
ancestors it walks, whenever that walk materialises within the fuel. -/
theorem cleanLoop_eq_contains (σ : Nat → Option Nat) (selfId : Nat) :
    ∀ (n : Nat) (oc : Option Nat) (l : List Nat),
      ancestorsF σ n oc = some l →
      cleanLoop σ selfId n oc = some (decide (selfId ∈ l)) := by
  intro n
  induction n with
  | zero =>
    intro oc l h
    cases oc with
    | none =>
      simp [ancestorsF] at h
      subst h
      simp [cleanLoop]
    | some c => simp [ancestorsF] at h
  | succ n ih =>
    intro oc l h
    cases oc with
    | none =>
      simp [ancestorsF] at h
      subst h
      simp [cleanLoop]
    | some c =>
      simp only [ancestorsF, Option.map_eq_some'] at h
      obtain ⟨l', hl', rfl⟩ := h
      by_cases hc : c = selfId
      · subst hc
        simp [cleanLoop]
      · rw [show cleanLoop σ selfId (n + 1) (some c) =
              cleanLoop σ selfId n (σ c) by simp [cleanLoop, hc]]
        rw [ih (σ c) l' hl']
        simp [List.mem_cons, Ne.symm hc]

/-- C8: Category.clean raises a ValidationError exactly when the category
occurs in its own parent chain, directly (the self-parent check) or
transitively (the circular-reference walk), provided the stored chain
materialises within the fuel. -/
theorem category_clean_iff_ancestor (σ : Nat → Option Nat) (n selfId : Nat)
    (parent : Option Nat) (l : List Nat)
    (hl : ancestorsF σ n parent = some l) :
    Category.clean σ n selfId parent = some (decide (selfId ∈ l)) := by
  unfold Category.clean
  by_cases hp : parent = some selfId
  · subst hp
    rw [if_pos rfl]
    cases n with
    | zero => simp [ancestorsF] at hl
    | succ n =>
      simp only [ancestorsF, Option.map_eq_some'] at hl
      obtain ⟨l', -, rfl⟩ := hl
      simp
  · rw [if_neg hp]
    exact cleanLoop_eq_contains σ selfId n parent l hl

/-- A concrete stored parent table: 1 points to 2, 2 points to 3, 3 is a
root. -/
def chainParents : Nat → Option Nat := fun c =>
  if c = 1 then some 2 else if c = 2 then some 3 else none

/-- Witness for category_clean_iff_ancestor: category 3 with candidate
parent 1 is its own transitive ancestor, so clean raises. -/
theorem category_clean_iff_ancestor_witness :
    Category.clean chainParents 5 3 (some 1) = some true := by
  have h := category_clean_iff_ancestor chainParents 5 3 (some 1) [1, 2, 3]
    (by decide)
  simpa using h

/- ## Claim C10: the ancestor walks terminate on finite acyclic chains -/

/-- Fuel sufficiency for the clean loop: when following the parent
pointers from the start reaches a root within n steps, the loop finishes
within fuel n. -/
theorem cleanLoop_isSome (σ : Nat → Option Nat) (selfId : Nat) :
    ∀ (n : Nat) (oc : Option Nat), iterParent σ n oc = none →
      (cleanLoop σ selfId n oc).isSome := by
  intro n
  induction n with
  | zero =>
    intro oc h
    simp [iterParent] at h
    subst h
    simp [cleanLoop]
  | succ n ih =>
    intro oc h
    cases oc with
    | none => simp [cleanLoop]
    | some c =>
      simp only [iterParent] at h
      by_cases hc : c = selfId
      · simp [cleanLoop, hc]
      · simp only [cleanLoop, hc, if_false]
        exact ih (σ c) h

/-- Fuel sufficiency for the level loop. -/
theorem levelLoop_isSome (σ : Nat → Option Nat) :
    ∀ (n : Nat) (oc : Option Nat), iterParent σ n oc = none →
      (levelLoop σ n oc).isSome := by
  intro n
  induction n with
  | zero =>
    intro oc h
    simp [iterParent] at h
    subst h
    simp [levelLoop]
  | succ n ih =>
    intro oc h
    cases oc with
    | none => simp [levelLoop]
    | some c =>
      simp only [iterParent] at h
      simpa [levelLoop] using ih (σ c) h

/-- Fuel sufficiency for full_name. -/
theorem full_name_isSome (σ : Nat → Option Nat) (ν : Nat → String) :
    ∀ (n c : Nat), iterParent σ n (some c) = none →
      (Category.full_name σ ν n c).isSome := by
  intro n
  induction n with
  | zero =>
    intro c h
    simp [iterParent] at h
  | succ n ih =>
    intro c h
    simp only [iterParent] at h
    cases hc : σ c with
    | none => simp [Category.full_name, hc]
    | some p =>
      rw [hc] at h
      simpa [Category.full_name, hc] using ih p h

/-- C10: when the stored parent chain above category c reaches a root
within n steps (finite, acyclic chain), Category.clean, Category.level and
Category.full_name all terminate. -/
theorem category_walks_terminate (σ : Nat → Option Nat) (ν : Nat → String)
    (n c : Nat) (h : iterParent σ n (σ c) = none) :
    (Category.clean σ n c (σ c)).isSome ∧
    (levelLoop σ n (σ c)).isSome ∧
    (Category.full_name σ ν (n + 1) c).isSome := by
  refine ⟨?_, levelLoop_isSome σ n (σ c) h, ?_⟩
  · unfold Category.clean
    split
    · simp
    · exact cleanLoop_isSome σ c n (σ c) h
  · apply full_name_isSome
    simpa [iterParent] using h

/-- Witness for category_walks_terminate: category 1 in the concrete chain
1 to 2 to 3 to root, with fuel 3. -/
theorem category_walks_terminate_witness :
    (Category.clean chainParents 3 1 (chainParents 1)).isSome ∧
    (levelLoop chainParents 3 (chainParents 1)).isSome ∧
    (Category.full_name chainParents (fun _ => "c") 4 1).isSome :=
  category_walks_terminate chainParents (fun _ => "c") 3 1 (by decide)

/- ## Token table lemmas (unique token column) -/

/-- In a table whose token column is duplicate-free, two rows with the
same token value are the same row. -/
theorem token_column_unique {l : List EmailVerificationToken}
    {t x : EmailVerificationToken}
    (hnd : (l.map EmailVerificationToken.token).Nodup)
    (ht : t ∈ l) (hx : x ∈ l) (he : x.token = t.token) : x = t := by
  induction l with
  | nil => cases ht
  | cons a l ih =>
    rw [List.map_cons, List.nodup_cons] at hnd
    rcases List.mem_cons.mp ht with rfl | htl
    · rcases List.mem_cons.mp hx with rfl | hxl
      · rfl
      · exact absurd (he ▸ List.mem_map_of_mem EmailVerificationToken.token hxl)
          hnd.1
    · rcases List.mem_cons.mp hx with rfl | hxl
      · exact absurd (he ▸ List.mem_map_of_mem EmailVerificationToken.token htl)
          hnd.1
      · exact ih hnd.2 htl hxl

/-- The lookup get(token=tok, used=False) finds the unused row carrying
tok when the token column is duplicate-free. -/
theorem find_unused_token {l : List EmailVerificationToken}
    {t : EmailVerificationToken} (ht : t ∈ l)
    (hnd : (l.map EmailVerificationToken.token).Nodup)
    (hu : t.used = false) :
    l.find? (fun x => x.token == t.token && !x.used) = some t := by
  induction l with
  | nil => cases ht
  | cons a l ih =>
    rw [List.map_cons, List.nodup_cons] at hnd
    rcases List.mem_cons.mp ht with rfl | htl
    · have hpred : (t.token == t.token && !t.used) = true := by simp [hu]
      simp [List.find?_cons, hpred, hu]
    · have hna : a.token ≠ t.token := by
        intro he
        exact hnd.1 (he ▸ List.mem_map_of_mem EmailVerificationToken.token htl)
      have hpred : (a.token == t.token && !a.used) = false := by simp [hna]
      simp only [List.find?_cons, hpred]
      exact ih htl hnd.2

/-- The lookup get(token=tok, used=False) fails when every row carrying
tok is already used. -/
theorem find_unused_token_none {l : List EmailVerificationToken} {tok : Nat}
    (h : ∀ x ∈ l, x.token = tok → x.used = true) :
    l.find? (fun x => x.token == tok && !x.used) = none := by
  induction l with
  | nil => rfl
  | cons a l ih =>
    have hpred : (a.token == tok && !a.used) = false := by
      by_cases ha : a.token = tok
      · simp [ha, h a (List.mem_cons_self a l) ha]
      · simp [ha]
    simp only [List.find?_cons, hpred]
    exact ih fun x hx hxt => h x (List.mem_cons_of_mem a hx) hxt

/-- After the success path marks the row used, every row carrying the
token value is used. -/
theorem marked_tokens_used (l : List EmailVerificationToken) (tok : Nat) :
    ∀ x ∈ l.map (fun t => if t.token == tok then { t with used := true } else t),
      x.token = tok → x.used = true := by
  intro x hx hxt
  obtain ⟨a, ha, rfl⟩ := List.mem_map.mp hx
  by_cases hat : a.token = tok
  · simp [hat]
  · rw [if_neg (by simp [hat])] at hxt ⊢
    exact absurd hxt hat

/- ## Claim C2: verify_email rejects used or expired tokens -/

/-- C2: with a token row that is already used or expired, verify_email
answers 400 and the whole database state (user, profile and token rows) is
unchanged. -/
theorem verify_email_rejects_used_or_expired (now : ℤ) (s : VerifyState)
    (t : EmailVerificationToken) (ht : t ∈ s.tokens)
    (hnd : (s.tokens.map EmailVerificationToken.token).Nodup)
    (hbad : t.used = true ∨ t.expires_at < now) :
    (verify_email now s t.token).1.status = 400 ∧
    (verify_email now s t.token).2 = s := by
  by_cases hu : t.used = true
  · have hfind : s.tokens.find? (fun x => x.token == t.token && !x.used) = none :=
      find_unused_token_none fun x hx hxt => by
        rw [token_column_unique hnd ht hx hxt]; exact hu
    simp [verify_email, hfind]
  · have hu' : t.used = false := by simpa using hu
    have hexp : t.expires_at < now := by
      rcases hbad with h | h
      · exact absurd h hu
      · exact h
    have hfind := find_unused_token ht hnd hu'
    simp [verify_email, hfind, EmailVerificationToken.is_expired, hexp]

/-- A used token row and a state containing it. -/
def usedToken : EmailVerificationToken :=
  { userId := 0, token := 1, created_at := 0, expires_at := 100
    used := true, used_at := some 10 }

/-- State holding only the used token. -/
def usedTokenState : VerifyState :=
  { tokens := [usedToken], userActive := fun _ => true
    profVerified := fun _ => true, profVerifiedAt := fun _ => some 10 }

/-- Witness for verify_email_rejects_used_or_expired on a used token. -/
theorem verify_email_rejects_witness :
    (verify_email 50 usedTokenState 1).1.status = 400 ∧
    (verify_email 50 usedTokenState 1).2 = usedTokenState := by
  have h := verify_email_rejects_used_or_expired 50 usedTokenState usedToken
    (by decide) (by decide) (Or.inl rfl)
  simpa using h

/- ## Claim C1: verify_email on a valid token -/

/-- State with one valid (unused, unexpired) token whose profile is
already verified but whose user is inactive. -/
def preverifiedState : VerifyState :=
  { tokens := [{ userId := 0, token := 1, created_at := 0, expires_at := 100
                 used := false, used_at := none }]
    userActive := fun _ => false
    profVerified := fun _ => true
    profVerifiedAt := fun _ => some 0 }

/-- C1 counterexample: the stored token is unused and unexpired, yet
because the profile is already verified, verify_email activates nothing,
consumes nothing, and a second call with the same token still answers 200
instead of the claimed 400. -/
theorem verify_email_valid_token_counterexample :
    (∃ t ∈ preverifiedState.tokens,
      t.token = 1 ∧ t.used = false ∧ t.is_expired 0 = false) ∧
    (verify_email 0 preverifiedState 1).2.userActive 0 = false ∧
    (∀ t ∈ (verify_email 0 preverifiedState 1).2.tokens, t.used = false) ∧
    (verify_email 0 (verify_email 0 preverifiedState 1).2 1).1.status = 200 := by
  decide

/-- C1 (amended): for an unused, unexpired token whose profile is not yet
verified, one call to verify_email marks the profile verified, activates
the user and consumes the token, and any later call with the same token
answers 400.  (When the profile is already verified the handler instead
returns 200 and changes nothing.) -/
theorem verify_email_valid_token (now : ℤ) (s : VerifyState)
    (t : EmailVerificationToken) (ht : t ∈ s.tokens)
    (hnd : (s.tokens.map EmailVerificationToken.token).Nodup)
    (hu : t.used = false) (hexp : ¬ t.expires_at < now)
    (hver : s.profVerified t.userId = false) :
    (verify_email now s t.token).1.status = 200 ∧
    (verify_email now s t.token).2.profVerified t.userId = true ∧
    (verify_email now s t.token).2.userActive t.userId = true ∧
    { t with used := true } ∈ (verify_email now s t.token).2.tokens ∧
    ∀ now2 : ℤ, (verify_email now2 (verify_email now s t.token).2 t.token).1.status = 400 := by
  have hfind := find_unused_token ht hnd hu
  have hne : t.is_expired now = false := by
    simp [EmailVerificationToken.is_expired, hexp]
  have hcall : verify_email now s t.token =
      ({ status := 200, success := true
         message := "Email verified successfully! You can now log in." },
       { s with
         profVerified := fun u => if u = t.userId then true else s.profVerified u
         profVerifiedAt := fun u => if u = t.userId then some now else s.profVerifiedAt u
         userActive := fun u => if u = t.userId then true else s.userActive u
         tokens := s.tokens.map
           (fun x => if x.token == t.token then { x with used := true } else x) }) := by
    rw [verify_email, hfind]
    simp [hne, hver]
  refine ⟨by rw [hcall], by rw [hcall]; simp, by rw [hcall]; simp, ?_, ?_⟩
  · rw [hcall]
    have := List.mem_map_of_mem
      (fun x => if x.token == t.token then { x with used := true } else x) ht
    simpa using this
  · intro now2
    rw [hcall]
    have hfind2 := find_unused_token_none (marked_tokens_used s.tokens t.token)
    unfold verify_email
    rw [hfind2]

/-- State with one valid token and an unverified, inactive user. -/
def freshVerifyState : VerifyState :=
  { tokens := [{ userId := 0, token := 1, created_at := 0, expires_at := 100
                 used := false, used_at := none }]
    userActive := fun _ => false
    profVerified := fun _ => false
    profVerifiedAt := fun _ => none }

/-- The valid token of freshVerifyState. -/
def freshToken : EmailVerificationToken :=
  { userId := 0, token := 1, created_at := 0, expires_at := 100
    used := false, used_at := none }

/-- Witness for verify_email_valid_token on freshVerifyState at time 0. -/
theorem verify_email_valid_token_witness :
    (verify_email 0 freshVerifyState 1).1.status = 200 ∧
    (verify_email 0 freshVerifyState 1).2.profVerified 0 = true ∧
    (verify_email 0 freshVerifyState 1).2.userActive 0 = true ∧
    { freshToken with used := true } ∈ (verify_email 0 freshVerifyState 1).2.tokens ∧
    ∀ now2 : ℤ, (verify_email now2 (verify_email 0 freshVerifyState 1).2 1).1.status = 400 := by
  have h := verify_email_valid_token 0 freshVerifyState freshToken
    (by decide) (by decide) rfl (by decide) rfl
  simpa using h

/- ## Claim C5: anti-enumeration noninterference -/

/-- After input validation, resend_verification_email answers the standard
response on every path. -/
theorem resend_response_const (validFmt : String → Bool) (sendOk : Bool)
    (newTok : Nat) (now : ℤ) (s : AccountState) (email : String)
    (hne : email ≠ "") (hv : validFmt email = true) :
    (resend_verification_email validFmt sendOk newTok now s email).1 =
      resendStandardResponse := by
  unfold resend_verification_email
  rw [if_neg hne, if_neg (by simp [hv])]
  cases hfind : s.users.find? (fun u => u.email == email) with
  | none => rfl
  | some u =>
    by_cases h1 : s.profVerified u.id
    · simp [h1]
    · by_cases h2 : 3 ≤ recentTokenCount s.tokens u.id now 300
      · simp [h1, h2]
      · simp [h1, h2]

/-- After input validation, request_password_reset answers the standard
response on every path. -/
theorem reset_response_const (validFmt : String → Bool) (newTok : Nat)
    (now : ℤ) (s : AccountState) (email : String)
    (hne : email ≠ "") (hv : validFmt email = true) :
    (request_password_reset validFmt newTok now s email).1 =
      resetStandardResponse := by
  unfold request_password_reset
  rw [if_neg hne, if_neg (by simp [hv])]
  cases hfind : s.users.find? (fun u => u.email == email) with
  | none => rfl
  | some u =>
    by_cases h1 : u.is_active
    · by_cases h2 : 3 ≤ recentTokenCount s.tokens u.id now 900
      · simp [h1, h2]
      · simp [h1, h2]
    · simp [h1]

/-- C5: two well-formed runs of resend_verification_email (and of
request_password_reset) that may differ in everything else, in particular
in whether the supplied email belongs to an existing user, produce the
identical response, payload and status code alike. -/
theorem anti_enumeration_noninterference (validFmt : String → Bool)
    (email : String) (hne : email ≠ "") (hv : validFmt email = true)
    (sendOk1 sendOk2 : Bool) (newTok1 newTok2 : Nat) (now1 now2 : ℤ)
    (s1 s2 : AccountState) :
    (resend_verification_email validFmt sendOk1 newTok1 now1 s1 email).1 =
      (resend_verification_email validFmt sendOk2 newTok2 now2 s2 email).1 ∧
    (request_password_reset validFmt newTok1 now1 s1 email).1 =
      (request_password_reset validFmt newTok2 now2 s2 email).1 := by
  constructor
  · rw [resend_response_const validFmt sendOk1 newTok1 now1 s1 email hne hv,
      resend_response_const validFmt sendOk2 newTok2 now2 s2 email hne hv]
  · rw [reset_response_const validFmt newTok1 now1 s1 email hne hv,
      reset_response_const validFmt newTok2 now2 s2 email hne hv]

/-- Account state in which the probed email exists. -/
def stateWithUser : AccountState :=
  { users := [{ id := 0, email := "a@b.c", is_active := true }]
    profVerified := fun _ => false
    tokens := []
    emailsSent := [] }

/-- Account state in which the probed email does not exist. -/
def stateWithoutUser : AccountState :=
  { users := []
    profVerified := fun _ => false
    tokens := []
    emailsSent := [] }

/-- Witness for anti_enumeration_noninterference: the email exists in one
run and not in the other. -/
theorem anti_enumeration_noninterference_witness :
    (resend_verification_email (fun _ => true) true 7 1000 stateWithUser "a@b.c").1 =
      (resend_verification_email (fun _ => true) false 8 2000 stateWithoutUser "a@b.c").1 ∧
    (request_password_reset (fun _ => true) 7 1000 stateWithUser "a@b.c").1 =
      (request_password_reset (fun _ => true) 8 2000 stateWithoutUser "a@b.c").1 :=
  anti_enumeration_noninterference (fun _ => true) "a@b.c" (by decide) rfl
    true false 7 8 1000 2000 stateWithUser stateWithoutUser

/- ## Claim C6: token-row rate limiting -/

/-- C6: when the user behind the email already has 3 or more token rows
created inside the rolling window (300 s for resend, 900 s for reset), the
handler creates no token, sends no email and changes nothing, and still
answers the generic success response: the result is exactly the standard
response with the state untouched. -/
theorem rate_limit_blocks (validFmt : String → Bool) (sendOk : Bool)
    (newTok1 newTok2 : Nat) (now : ℤ) (s : AccountState) (email : String)
    (u : UserRec) (hne : email ≠ "") (hv : validFmt email = true)
    (hu : s.users.find? (fun x => x.email == email) = some u) :
    (3 ≤ recentTokenCount s.tokens u.id now 300 →
      resend_verification_email validFmt sendOk newTok1 now s email =
        (resendStandardResponse, s)) ∧
    (3 ≤ recentTokenCount s.tokens u.id now 900 →
      request_password_reset validFmt newTok2 now s email =
        (resetStandardResponse, s)) := by
  constructor
  · intro h3
    unfold resend_verification_email
    rw [if_neg hne, if_neg (by simp [hv]), hu]
    by_cases h1 : s.profVerified u.id
    · simp [h1]
    · simp [h1, h3]
  · intro h3
    unfold request_password_reset
    rw [if_neg hne, if_neg (by simp [hv]), hu]
    by_cases h1 : u.is_active
    · simp [h1, h3]
    · simp [h1]

/-- The rate-limited user. -/
def rateLimitedUser : UserRec :=
  { id := 0, email := "a@b.c", is_active := true }

/-- Account state with three token rows created 10 s before the probe. -/
def rateLimitedState : AccountState :=
  { users := [rateLimitedUser]
    profVerified := fun _ => false
    tokens :=
      [{ userId := 0, token := 1, created_at := 990, expires_at := 87390
         used := false, used_at := none },
       { userId := 0, token := 2, created_at := 990, expires_at := 87390
         used := false, used_at := none },
       { userId := 0, token := 3, created_at := 990, expires_at := 87390
         used := false, used_at := none }]
    emailsSent := [] }

/-- Witness for rate_limit_blocks: three tokens 10 s old at time 1000. -/
theorem rate_limit_blocks_witness :
    resend_verification_email (fun _ => true) true 9 1000 rateLimitedState "a@b.c" =
      (resendStandardResponse, rateLimitedState) ∧
    request_password_reset (fun _ => true) 9 1000 rateLimitedState "a@b.c" =
      (resetStandardResponse, rateLimitedState) := by
  have h := rate_limit_blocks (fun _ => true) true 9 9 1000 rateLimitedState
    "a@b.c" rateLimitedUser (by decide) rfl (by decide)
  exact ⟨h.1 (by decide), h.2 (by decide)⟩

end MiniEcom
